import Mathlib

/-!
Verification of the motion-detect camera core (alphaKAI/move_detect_cam,
`src/main.rs`), as a shallow embedding.

The embedding covers:
* the recorder actor thread (`recorder_thread`): a request loop over a state
  consisting of a `recording` flag and an optional video writer.  Opening a
  sink is modelled by drawing a fresh identifier from a counter (the code
  uses a fresh UUID file name); `write` and `release` are modelled as
  succeeding, since in the code their failure is an `unwrap` panic, not an
  `Err` response.
* the per-frame controller loop of `start_moving_detection_camera`: the
  hysteresis state (`is_recording`, `start_datetime`), the threshold
  comparisons, the requests it issues to the actor, and its
  panic-on-`Err` policy.  Responses are supplied by an oracle indexed by the
  number of requests sent so far; a panic is modelled by an `aborted` flag
  after which nothing further executes.
* the background-model pipeline for the first frame, in exact rational
  arithmetic: `convert_to CV_32F`, `accumulate_weighted` with weight 0.6,
  `convert_scale_abs`, `absdiff`, and the fixed binary threshold at 40.
-/

namespace MoveDetectCam

/-- The request type `RecorderRequest` from the code.  The `Frame` payload (a `Mat` in the
code) is represented by a frame identifier; the actor never inspects it. -/
inductive RecorderRequest where
  | Start : RecorderRequest
  | Frame : Nat → RecorderRequest
  | Stop : RecorderRequest
  | Shutdown : RecorderRequest
deriving DecidableEq

/-- The response type `RecorderResponse` from the code. -/
inductive RecorderResponse where
  | Ok : RecorderResponse
  | Err : RecorderResponse
deriving DecidableEq

/-- The recorder thread's local state: the `recording` flag and the optional
writer, as in `recorder_thread`.  To speak about sink lifecycle the model
also tracks the identifiers of sinks opened and released so far; `nextSink`
is the source of fresh identifiers (the code derives a fresh UUID file name
per `Start`). -/
structure RecorderState where
  recording : Bool
  writer : Option Nat
  nextSink : Nat
  opened : List Nat
  closed : List Nat
deriving DecidableEq

/-- Initial actor state: `recording = false`, `writer = None`. -/
def initialRecorderState : RecorderState :=
  { recording := false, writer := none, nextSink := 0, opened := [], closed := [] }

/-- One iteration of the `recorder_thread` match: the state after the request
and the response sent for it.  `VideoWriter::new(..).unwrap()`,
`writer.write(&mat).unwrap()` and `writer.release().unwrap()` are modelled as
succeeding (their failure is a panic in the code, not an `Err` response). -/
def recorderStep (s : RecorderState) : RecorderRequest → RecorderState × RecorderResponse
  | RecorderRequest.Start =>
      ({ s with writer := some s.nextSink,
                nextSink := s.nextSink + 1,
                opened := s.opened ++ [s.nextSink],
                recording := true },
       RecorderResponse.Ok)
  | RecorderRequest.Frame _ =>
      if s.recording then
        match s.writer with
        | some _ => (s, RecorderResponse.Ok)
        | none => (s, RecorderResponse.Err)
      else (s, RecorderResponse.Err)
  | RecorderRequest.Stop =>
      if s.recording then
        match s.writer with
        | some w =>
            ({ s with closed := s.closed ++ [w], writer := none, recording := false },
             RecorderResponse.Ok)
        | none =>
            ({ s with writer := none, recording := false }, RecorderResponse.Err)
      else (s, RecorderResponse.Err)
  | RecorderRequest.Shutdown => (s, RecorderResponse.Ok)

/-- Whether a request is `Shutdown`; the `Shutdown` arm of the match in
`recorder_thread` ends with `break`. -/
def isShutdownReq : RecorderRequest → Bool
  | RecorderRequest.Shutdown => true
  | _ => false

/-- The request loop of `recorder_thread` run on a finite queue of requests:
returns the final state and the responses sent, in order.  The loop stops at
the first `Shutdown` (after answering it) and otherwise answers every
request. -/
def recorderRun : RecorderState → List RecorderRequest → RecorderState × List RecorderResponse
  | s, [] => (s, [])
  | s, r :: rest =>
      let p := recorderStep s r
      if isShutdownReq r then (p.1, [p.2])
      else
        let q := recorderRun p.1 rest
        (q.1, p.2 :: q.2)

/-- The actor state reached from the initial state by a queue of requests. -/
def reachState (reqs : List RecorderRequest) : RecorderState :=
  (recorderRun initialRecorderState reqs).1

theorem isShutdownReq_eq_false {r : RecorderRequest}
    (h : r ≠ RecorderRequest.Shutdown) : isShutdownReq r = false := by
  cases r <;> simp_all [isShutdownReq]

theorem recorderRun_length_of_no_shutdown (pre : List RecorderRequest) :
    ∀ s : RecorderState, RecorderRequest.Shutdown ∉ pre →
      (recorderRun s pre).2.length = pre.length := by
  induction pre with
  | nil => intro s _; simp [recorderRun]
  | cons r rest ih =>
      intro s h
      have hr : r ≠ RecorderRequest.Shutdown := fun hc => h (by simp [hc])
      have hrest : RecorderRequest.Shutdown ∉ rest := fun hc => h (by simp [hc])
      simp only [recorderRun, isShutdownReq_eq_false hr, if_neg Bool.false_ne_true]
      simp [ih _ hrest]

theorem recorderRun_shutdown_append (pre post : List RecorderRequest) :
    ∀ s : RecorderState, RecorderRequest.Shutdown ∉ pre →
      (recorderRun s (pre ++ RecorderRequest.Shutdown :: post)).2 =
        (recorderRun s pre).2 ++ [RecorderResponse.Ok] := by
  induction pre with
  | nil =>
      intro s _
      simp [recorderRun, isShutdownReq, recorderStep]
  | cons r rest ih =>
      intro s h
      have hr : r ≠ RecorderRequest.Shutdown := fun hc => h (by simp [hc])
      have hrest : RecorderRequest.Shutdown ∉ rest := fun hc => h (by simp [hc])
      simp only [List.cons_append, recorderRun, isShutdownReq_eq_false hr,
        if_neg Bool.false_ne_true]
      simp [ih _ hrest]

/-- Claim C1: in the recorder request loop, each processed request yields
exactly one response in request order: a queue of `N` non-`Shutdown` requests
yields exactly `N` responses; and when a first `Shutdown` follows them, the
loop answers exactly those `N` requests, answers the `Shutdown` with `Ok`,
and exits, so no request after the `Shutdown` is answered. -/
theorem recorder_fifo_one_response_per_request
    (pre post : List RecorderRequest) (h : RecorderRequest.Shutdown ∉ pre) :
    (recorderRun initialRecorderState pre).2.length = pre.length ∧
      (recorderRun initialRecorderState (pre ++ RecorderRequest.Shutdown :: post)).2 =
        (recorderRun initialRecorderState pre).2 ++ [RecorderResponse.Ok] :=
  ⟨recorderRun_length_of_no_shutdown pre initialRecorderState h,
   recorderRun_shutdown_append pre post initialRecorderState h⟩

/-- Witness for C1 at a concrete queue: two requests before the `Shutdown`,
one request after it that is never answered. -/
theorem recorder_fifo_one_response_per_request_witness :
    (recorderRun initialRecorderState
        [RecorderRequest.Start, RecorderRequest.Stop]).2.length = 2 ∧
      (recorderRun initialRecorderState
          [RecorderRequest.Start, RecorderRequest.Stop, RecorderRequest.Shutdown,
            RecorderRequest.Start]).2 =
        (recorderRun initialRecorderState
          [RecorderRequest.Start, RecorderRequest.Stop]).2 ++ [RecorderResponse.Ok] :=
  recorder_fifo_one_response_per_request
    [RecorderRequest.Start, RecorderRequest.Stop] [RecorderRequest.Start] (by decide)

/-- Bookkeeping invariant on the sink identifiers: every opened identifier is
below the fresh counter, and the bound writer (if any) was opened. -/
def sinkInv (s : RecorderState) : Prop :=
  (∀ i ∈ s.opened, i < s.nextSink) ∧ (∀ w, s.writer = some w → w ∈ s.opened)

theorem sinkInv_initial : sinkInv initialRecorderState := by
  constructor <;> simp [initialRecorderState]

theorem sinkInv_step (s : RecorderState) (r : RecorderRequest) (h : sinkInv s) :
    sinkInv (recorderStep s r).1 := by
  obtain ⟨h1, h2⟩ := h
  cases r with
  | Start =>
      refine ⟨?_, ?_⟩
      · intro i hi
        simp only [recorderStep, List.mem_append, List.mem_singleton] at hi ⊢
        rcases hi with hi | hi
        · exact Nat.lt_succ_of_lt (h1 i hi)
        · simp [hi]
      · intro w hw
        simp only [recorderStep, Option.some_inj] at hw
        simp [recorderStep, hw]
  | Frame n =>
      simp only [recorderStep]
      split
      · cases hw : s.writer with
        | none => simpa [hw] using ⟨h1, h2⟩
        | some w => simpa [hw] using ⟨h1, h2⟩
      · exact ⟨h1, h2⟩
  | Stop =>
      simp only [recorderStep]
      split
      · cases hw : s.writer with
        | none => simpa [hw] using ⟨h1, by simp⟩
        | some w => simpa [hw] using ⟨h1, by simp⟩
      · exact ⟨h1, h2⟩
  | Shutdown => exact ⟨h1, h2⟩

theorem sinkInv_run (reqs : List RecorderRequest) :
    ∀ s : RecorderState, sinkInv s → sinkInv (recorderRun s reqs).1 := by
  induction reqs with
  | nil => intro s h; simpa [recorderRun] using h
  | cons r rest ih =>
      intro s h
      simp only [recorderRun]
      split
      · exact sinkInv_step s r h
      · exact ih _ (sinkInv_step s r h)

theorem sinkInv_reach (reqs : List RecorderRequest) : sinkInv (reachState reqs) :=
  sinkInv_run reqs initialRecorderState sinkInv_initial

/-- Claim C2: from any reachable actor state, a `Start` request responds `Ok`
and leaves the actor recording with a freshly opened sink bound; the set of
released sinks does not change, so a `Start` received while already
recording opens a second, distinct sink without closing the first. -/
theorem start_always_ok_fresh_sink (reqs : List RecorderRequest) :
    (recorderStep (reachState reqs) RecorderRequest.Start).2 = RecorderResponse.Ok ∧
      (recorderStep (reachState reqs) RecorderRequest.Start).1.recording = true ∧
      (recorderStep (reachState reqs) RecorderRequest.Start).1.writer =
        some (reachState reqs).nextSink ∧
      (reachState reqs).nextSink ∉ (reachState reqs).opened ∧
      (recorderStep (reachState reqs) RecorderRequest.Start).1.opened =
        (reachState reqs).opened ++ [(reachState reqs).nextSink] ∧
      (recorderStep (reachState reqs) RecorderRequest.Start).1.closed =
        (reachState reqs).closed ∧
      (∀ w, (reachState reqs).writer = some w →
        w ≠ (reachState reqs).nextSink ∧
          w ∈ (recorderStep (reachState reqs) RecorderRequest.Start).1.opened) := by
  obtain ⟨h1, h2⟩ := sinkInv_reach reqs
  refine ⟨rfl, rfl, rfl, ?_, rfl, rfl, ?_⟩
  · intro hc
    exact absurd (h1 _ hc) (lt_irrefl _)
  · intro w hw
    refine ⟨fun hc => ?_, ?_⟩
    · exact absurd (h1 w (h2 w hw)) (by simp [hc])
    · simp [recorderStep, h2 w hw]

/-- Witness for C2: after one `Start`, a second `Start` succeeds; the first
sink (identifier 0) stays bound to no closure while sink 1 is opened. -/
theorem start_always_ok_fresh_sink_witness :
    (recorderStep (reachState [RecorderRequest.Start]) RecorderRequest.Start).2 =
        RecorderResponse.Ok ∧
      (recorderStep (reachState [RecorderRequest.Start]) RecorderRequest.Start).1.writer =
        some 1 ∧
      (0 : Nat) ≠ 1 ∧
      (0 : Nat) ∈
        (recorderStep (reachState [RecorderRequest.Start]) RecorderRequest.Start).1.opened ∧
      (recorderStep (reachState [RecorderRequest.Start]) RecorderRequest.Start).1.closed =
        [] := by
  have h := start_always_ok_fresh_sink [RecorderRequest.Start]
  have hw : (reachState [RecorderRequest.Start]).writer = some 0 := by decide
  have h0 := h.2.2.2.2.2.2 0 hw
  exact ⟨h.1, by decide, h0.1, h0.2, by decide⟩

/-- Claim C3: a `Frame` or `Stop` request received while `recording` is
false responds `Err` and leaves the state (recording flag, writer, and all
bookkeeping) unchanged. -/
theorem idle_frame_stop_err (s : RecorderState) (n : Nat)
    (h : s.recording = false) :
    recorderStep s (RecorderRequest.Frame n) = (s, RecorderResponse.Err) ∧
      recorderStep s RecorderRequest.Stop = (s, RecorderResponse.Err) := by
  constructor <;> simp [recorderStep, h]

/-- Witness for C3 at the initial state. -/
theorem idle_frame_stop_err_witness :
    initialRecorderState.recording = false ∧
      recorderStep initialRecorderState (RecorderRequest.Frame 7) =
        (initialRecorderState, RecorderResponse.Err) ∧
      recorderStep initialRecorderState RecorderRequest.Stop =
        (initialRecorderState, RecorderResponse.Err) :=
  ⟨rfl, (idle_frame_stop_err initialRecorderState 7 rfl).1,
    (idle_frame_stop_err initialRecorderState 7 rfl).2⟩

/-- Claim C4: a `Stop` request received while `recording` is true leaves the
actor idle — writer cleared and recording flag false — whichever response
(`Ok` or the defensive `Err`) was sent. -/
theorem stop_clears_state (s : RecorderState) (h : s.recording = true) :
    (recorderStep s RecorderRequest.Stop).1.writer = none ∧
      (recorderStep s RecorderRequest.Stop).1.recording = false := by
  cases hw : s.writer <;> simp [recorderStep, h, hw]

/-- Witness for C4: stopping right after a `Start` clears the state (this
run takes the `Ok` branch). -/
theorem stop_clears_state_witness :
    (reachState [RecorderRequest.Start]).recording = true ∧
      (recorderStep (reachState [RecorderRequest.Start]) RecorderRequest.Stop).1.writer =
        none ∧
      (recorderStep (reachState [RecorderRequest.Start]) RecorderRequest.Stop).1.recording =
        false :=
  ⟨by decide, (stop_clears_state (reachState [RecorderRequest.Start]) (by decide)).1,
    (stop_clears_state (reachState [RecorderRequest.Start]) (by decide)).2⟩

/-- Claim C10: in every reachable actor state, `recording` is true exactly
when a writer is bound; hence the defensive `Err` branches for `Frame` and
`Stop` (recording true but writer `None`) are unreachable: while recording,
both requests respond `Ok`. -/
theorem recording_iff_writer_isSome (reqs : List RecorderRequest) :
    ((reachState reqs).recording = true ↔ ((reachState reqs).writer).isSome = true) ∧
      (∀ n, (reachState reqs).recording = true →
        (recorderStep (reachState reqs) (RecorderRequest.Frame n)).2 =
          RecorderResponse.Ok) ∧
      ((reachState reqs).recording = true →
        (recorderStep (reachState reqs) RecorderRequest.Stop).2 = RecorderResponse.Ok) := by
  have key : ∀ (rs : List RecorderRequest) (s : RecorderState),
      (s.recording = true ↔ s.writer.isSome = true) →
      ((recorderRun s rs).1.recording = true ↔
        ((recorderRun s rs).1.writer).isSome = true) := by
    intro rs
    induction rs with
    | nil => intro s h; simpa [recorderRun] using h
    | cons r rest ih =>
        intro s h
        have hstep : ((recorderStep s r).1.recording = true ↔
            ((recorderStep s r).1.writer).isSome = true) := by
          cases r with
          | Start => simp [recorderStep]
          | Frame n =>
              simp only [recorderStep]
              split
              · cases hw : s.writer <;> simp [hw] <;> simp_all
              · simpa using h
          | Stop =>
              simp only [recorderStep]
              split
              · cases hw : s.writer <;> simp [hw]
              · simpa using h
          | Shutdown => simpa using h
        simp only [recorderRun]
        split
        · exact hstep
        · exact ih _ hstep
  have hiff := key reqs initialRecorderState (by simp [initialRecorderState])
  refine ⟨hiff, ?_, ?_⟩
  · intro n hrec
    obtain ⟨w, hw⟩ := Option.isSome_iff_exists.mp (hiff.mp hrec)
    have hw' : (reachState reqs).writer = some w := hw
    simp [recorderStep, hrec, hw']
  · intro hrec
    obtain ⟨w, hw⟩ := Option.isSome_iff_exists.mp (hiff.mp hrec)
    have hw' : (reachState reqs).writer = some w := hw
    simp [recorderStep, hrec, hw']

/-- Witness for C10 after a `Start`: recording with a bound writer, and both
`Frame` and `Stop` answer `Ok`. -/
theorem recording_iff_writer_isSome_witness :
    ((reachState [RecorderRequest.Start]).writer).isSome = true ∧
      (recorderStep (reachState [RecorderRequest.Start]) (RecorderRequest.Frame 0)).2 =
        RecorderResponse.Ok ∧
      (recorderStep (reachState [RecorderRequest.Start]) RecorderRequest.Stop).2 =
        RecorderResponse.Ok :=
  ⟨(recording_iff_writer_isSome [RecorderRequest.Start]).1.mp (by decide),
    (recording_iff_writer_isSome [RecorderRequest.Start]).2.1 0 (by decide),
    (recording_iff_writer_isSome [RecorderRequest.Start]).2.2 (by decide)⟩

/-! ## The per-frame controller of `start_moving_detection_camera` -/

/-- The constant `contours_threshold` from the controller: a frame counts as motion when
`contours.len() >= contours_threshold`. -/
def contours_threshold : Nat := 50

/-- The constant `DEFAULT_RECORDING_MIN_LEN`: three seconds.  Time is modelled in whole
seconds as integers. -/
def DEFAULT_RECORDING_MIN_LEN : Int := 3

/-- The controller's hysteresis state: `is_recording` and `start_datetime`
(the timestamp of the last frame whose contour count reached the
threshold). -/
structure CtrlState where
  is_recording : Bool
  start_datetime : Option Int
deriving DecidableEq

/-- The controller run's bookkeeping: hysteresis state, requests issued so
far (in order), number of responses consumed so far, and whether the process
has panicked.  After a panic nothing further executes. -/
structure CtrlM where
  s : CtrlState
  issued : List RecorderRequest
  k : Nat
  aborted : Bool
deriving DecidableEq

/-- Controller start state: not recording, no motion seen. -/
def initCtrlM : CtrlM :=
  { s := { is_recording := false, start_datetime := none },
    issued := [], k := 0, aborted := false }

/-- A round-trip `rec_client.send_request(req)` followed by the controller's
`if let RecorderResponse::Err = .. { panic! }` check.  The response to the
`m.k`-th request is `f m.k`; an `Err` response sets the panic flag. -/
def sendReq (f : Nat → RecorderResponse) (req : RecorderRequest) (m : CtrlM) : CtrlM :=
  if m.aborted then m
  else
    { m with issued := m.issued ++ [req],
             k := m.k + 1,
             aborted := f m.k = RecorderResponse.Err }

/-- One iteration of the recording block of `start_moving_detection_camera`
for a frame with contour count `activity` observed at time `now`; `i` is the
index of the current frame (the payload of its `Frame` request).  Mirrors
the source order: on motion, `is_recording` is set before the `Start`
round-trip and `start_datetime` after it; the quiescence check compares
`now - start_datetime >= DEFAULT_RECORDING_MIN_LEN`; finally a `Frame`
request is issued iff `is_recording` holds after those decisions. -/
def ctrlFrame (f : Nat → RecorderResponse) (m : CtrlM) (activity : Nat) (now : Int)
    (i : Nat) : CtrlM :=
  if m.aborted then m
  else
    let m1 :=
      if contours_threshold ≤ activity then
        let ms :=
          if m.s.is_recording = false then
            sendReq f RecorderRequest.Start
              { m with s := { m.s with is_recording := true } }
          else m
        if ms.aborted then ms
        else { ms with s := { ms.s with start_datetime := some now } }
      else if m.s.is_recording then
        match m.s.start_datetime with
        | some t =>
            if DEFAULT_RECORDING_MIN_LEN ≤ now - t then
              let ms := sendReq f RecorderRequest.Stop m
              if ms.aborted then ms
              else { ms with s := { ms.s with is_recording := false } }
            else m
        | none => m
      else m
    if m1.aborted then m1
    else if m1.s.is_recording then sendReq f (RecorderRequest.Frame i) m1
    else m1

/-- The controller loop over a finite list of frames, each a pair of contour
count and timestamp; `i` numbers the frames. -/
def ctrlRun (f : Nat → RecorderResponse) : List (Nat × Int) → Nat → CtrlM → CtrlM
  | [], _, m => m
  | (a, t) :: rest, i, m => ctrlRun f rest (i + 1) (ctrlFrame f m a t i)

/-- The response oracle of a run in which the actor never answers `Err`. -/
def allOk : Nat → RecorderResponse := fun _ => RecorderResponse.Ok

/-- Claim C5: with threshold 50 and minimum duration 3 s, on the activity
sequence `[60, 0, 0, 0]` at 1-second intervals from `t = 0` the controller
issues `Start` at `t = 0`, issues no `Stop` through `t = 2`, and issues
`Stop` exactly at `t = 3`, the first frame with
`now - start_datetime >= 3` (the comparison is `>=`, measured from the last
frame with activity at least 50). -/
theorem hysteresis_stop_at_three_seconds :
    (ctrlRun allOk [(60, 0), (0, 1), (0, 2)] 0 initCtrlM).issued =
        [RecorderRequest.Start, RecorderRequest.Frame 0, RecorderRequest.Frame 1,
          RecorderRequest.Frame 2] ∧
      (ctrlRun allOk [(60, 0), (0, 1), (0, 2), (0, 3)] 0 initCtrlM).issued =
        [RecorderRequest.Start, RecorderRequest.Frame 0, RecorderRequest.Frame 1,
          RecorderRequest.Frame 2, RecorderRequest.Stop] ∧
      (ctrlRun allOk [(60, 0), (0, 1), (0, 2), (0, 3)] 0 initCtrlM).s.is_recording =
        false := by
  refine ⟨by decide, by decide, by decide⟩

/-- Claim C6: on the alternating activity sequence `[60, 40, 60, 40, 60]` at
1 Hz with threshold 50, the controller never issues a `Stop` — each
above-threshold sample resets `start_datetime` before 3 s of quiescence
elapse — and `is_recording` is true after every frame from the first on. -/
theorem no_flap_never_stops :
    (ctrlRun allOk [(60, 0), (40, 1), (60, 2), (40, 3), (60, 4)] 0 initCtrlM).issued =
        [RecorderRequest.Start, RecorderRequest.Frame 0, RecorderRequest.Frame 1,
          RecorderRequest.Frame 2, RecorderRequest.Frame 3, RecorderRequest.Frame 4] ∧
      RecorderRequest.Stop ∉
        (ctrlRun allOk [(60, 0), (40, 1), (60, 2), (40, 3), (60, 4)] 0 initCtrlM).issued ∧
      (ctrlRun allOk [(60, 0)] 0 initCtrlM).s.is_recording = true ∧
      (ctrlRun allOk [(60, 0), (40, 1)] 0 initCtrlM).s.is_recording = true ∧
      (ctrlRun allOk [(60, 0), (40, 1), (60, 2)] 0 initCtrlM).s.is_recording = true ∧
      (ctrlRun allOk [(60, 0), (40, 1), (60, 2), (40, 3)] 0 initCtrlM).s.is_recording =
        true ∧
      (ctrlRun allOk [(60, 0), (40, 1), (60, 2), (40, 3), (60, 4)] 0
          initCtrlM).s.is_recording = true := by
  refine ⟨by decide, by decide, by decide, by decide, by decide, by decide, by decide⟩

theorem ctrlFrame_idle_low (f : Nat → RecorderResponse) (m : CtrlM) (a : Nat)
    (now : Int) (i : Nat) (hab : m.aborted = false) (ha : a < contours_threshold)
    (hr : m.s.is_recording = false) : ctrlFrame f m a now i = m := by
  simp [ctrlFrame, hab, hr, Nat.not_le.mpr ha]

theorem ctrlFrame_start (f : Nat → RecorderResponse) (m : CtrlM) (a : Nat)
    (now : Int) (i : Nat) (hab : m.aborted = false) (ha : contours_threshold ≤ a)
    (hr : m.s.is_recording = false) (hk : f m.k ≠ RecorderResponse.Err)
    (hk1 : f (m.k + 1) ≠ RecorderResponse.Err) :
    ctrlFrame f m a now i =
      { s := { is_recording := true, start_datetime := some now },
        issued := m.issued ++ [RecorderRequest.Start, RecorderRequest.Frame i],
        k := m.k + 2, aborted := false } := by
  simp [ctrlFrame, sendReq, hab, hr, ha, decide_eq_false hk, decide_eq_false hk1]

theorem ctrlFrame_rec_high (f : Nat → RecorderResponse) (m : CtrlM) (a : Nat)
    (now : Int) (i : Nat) (hab : m.aborted = false) (ha : contours_threshold ≤ a)
    (hr : m.s.is_recording = true) (hk : f m.k ≠ RecorderResponse.Err) :
    ctrlFrame f m a now i =
      { s := { is_recording := true, start_datetime := some now },
        issued := m.issued ++ [RecorderRequest.Frame i],
        k := m.k + 1, aborted := false } := by
  simp [ctrlFrame, sendReq, hab, hr, ha, decide_eq_false hk]

theorem ctrlFrame_rec_low_within (f : Nat → RecorderResponse) (m : CtrlM) (a : Nat)
    (now : Int) (i : Nat) (td : Int) (hab : m.aborted = false)
    (ha : a < contours_threshold) (hr : m.s.is_recording = true)
    (hsd : m.s.start_datetime = some td)
    (hwin : now - td < DEFAULT_RECORDING_MIN_LEN)
    (hk : f m.k ≠ RecorderResponse.Err) :
    ctrlFrame f m a now i =
      { s := m.s, issued := m.issued ++ [RecorderRequest.Frame i],
        k := m.k + 1, aborted := false } := by
  simp [ctrlFrame, sendReq, hab, hr, hsd, Nat.not_le.mpr ha, Int.not_le.mpr hwin,
    decide_eq_false hk]

/-- Claim C7: ten frames with activity `[0,0,0,0,0,60,60,60,0,0]` at
arbitrary timestamps whose last two frames fall inside the 3-second dwell
window measured from frame 8 (the last motion frame).  The controller issues
exactly one `Start`, at frame 6; issues a `Frame` request on each of frames
6 through 10 and on no earlier frame; and issues no `Stop`. -/
theorem ten_frame_start_once_no_stop
    (t0 t1 t2 t3 t4 t5 t6 t7 t8 t9 : Int)
    (h8 : t8 - t7 < DEFAULT_RECORDING_MIN_LEN)
    (h9 : t9 - t7 < DEFAULT_RECORDING_MIN_LEN) :
    (ctrlRun allOk
        [(0, t0), (0, t1), (0, t2), (0, t3), (0, t4), (60, t5), (60, t6), (60, t7),
          (0, t8), (0, t9)] 0 initCtrlM).issued =
      [RecorderRequest.Start, RecorderRequest.Frame 5, RecorderRequest.Frame 6,
        RecorderRequest.Frame 7, RecorderRequest.Frame 8, RecorderRequest.Frame 9] ∧
      RecorderRequest.Stop ∉
        (ctrlRun allOk
          [(0, t0), (0, t1), (0, t2), (0, t3), (0, t4), (60, t5), (60, t6), (60, t7),
            (0, t8), (0, t9)] 0 initCtrlM).issued ∧
      (ctrlRun allOk
          [(0, t0), (0, t1), (0, t2), (0, t3), (0, t4), (60, t5), (60, t6), (60, t7),
            (0, t8), (0, t9)] 0 initCtrlM).issued.count RecorderRequest.Start = 1 := by
  have hok : ∀ j : Nat, allOk j ≠ RecorderResponse.Err := by intro j; simp [allOk]
  have e0 := ctrlFrame_idle_low allOk initCtrlM 0 t0 0 rfl (by decide) rfl
  have e1 := ctrlFrame_idle_low allOk initCtrlM 0 t1 1 rfl (by decide) rfl
  have e2 := ctrlFrame_idle_low allOk initCtrlM 0 t2 2 rfl (by decide) rfl
  have e3 := ctrlFrame_idle_low allOk initCtrlM 0 t3 3 rfl (by decide) rfl
  have e4 := ctrlFrame_idle_low allOk initCtrlM 0 t4 4 rfl (by decide) rfl
  have e5 : ctrlFrame allOk initCtrlM 60 t5 5 =
      { s := { is_recording := true, start_datetime := some t5 },
        issued := [RecorderRequest.Start, RecorderRequest.Frame 5],
        k := 2, aborted := false } :=
    (ctrlFrame_start allOk initCtrlM 60 t5 5 rfl (by decide) rfl (hok 0) (hok 1)).trans rfl
  have e6 : ctrlFrame allOk
      { s := { is_recording := true, start_datetime := some t5 },
        issued := [RecorderRequest.Start, RecorderRequest.Frame 5],
        k := 2, aborted := false } 60 t6 6 =
      { s := { is_recording := true, start_datetime := some t6 },
        issued := [RecorderRequest.Start, RecorderRequest.Frame 5, RecorderRequest.Frame 6],
        k := 3, aborted := false } :=
    (ctrlFrame_rec_high allOk _ 60 t6 6 rfl (by decide) rfl (hok 2)).trans rfl
  have e7 : ctrlFrame allOk
      { s := { is_recording := true, start_datetime := some t6 },
        issued := [RecorderRequest.Start, RecorderRequest.Frame 5, RecorderRequest.Frame 6],
        k := 3, aborted := false } 60 t7 7 =
      { s := { is_recording := true, start_datetime := some t7 },
        issued := [RecorderRequest.Start, RecorderRequest.Frame 5, RecorderRequest.Frame 6,
          RecorderRequest.Frame 7],
        k := 4, aborted := false } :=
    (ctrlFrame_rec_high allOk _ 60 t7 7 rfl (by decide) rfl (hok 3)).trans rfl
  have e8 : ctrlFrame allOk
      { s := { is_recording := true, start_datetime := some t7 },
        issued := [RecorderRequest.Start, RecorderRequest.Frame 5, RecorderRequest.Frame 6,
          RecorderRequest.Frame 7],
        k := 4, aborted := false } 0 t8 8 =
      { s := { is_recording := true, start_datetime := some t7 },
        issued := [RecorderRequest.Start, RecorderRequest.Frame 5, RecorderRequest.Frame 6,
          RecorderRequest.Frame 7, RecorderRequest.Frame 8],
        k := 5, aborted := false } :=
    (ctrlFrame_rec_low_within allOk _ 0 t8 8 t7 rfl (by decide) rfl rfl h8 (hok 4)).trans rfl
  have e9 : ctrlFrame allOk
      { s := { is_recording := true, start_datetime := some t7 },
        issued := [RecorderRequest.Start, RecorderRequest.Frame 5, RecorderRequest.Frame 6,
          RecorderRequest.Frame 7, RecorderRequest.Frame 8],
        k := 5, aborted := false } 0 t9 9 =
      { s := { is_recording := true, start_datetime := some t7 },
        issued := [RecorderRequest.Start, RecorderRequest.Frame 5, RecorderRequest.Frame 6,
          RecorderRequest.Frame 7, RecorderRequest.Frame 8, RecorderRequest.Frame 9],
        k := 6, aborted := false } :=
    (ctrlFrame_rec_low_within allOk _ 0 t9 9 t7 rfl (by decide) rfl rfl h9 (hok 5)).trans rfl
  have hrun : ctrlRun allOk
      [(0, t0), (0, t1), (0, t2), (0, t3), (0, t4), (60, t5), (60, t6), (60, t7),
        (0, t8), (0, t9)] 0 initCtrlM =
      { s := { is_recording := true, start_datetime := some t7 },
        issued := [RecorderRequest.Start, RecorderRequest.Frame 5, RecorderRequest.Frame 6,
          RecorderRequest.Frame 7, RecorderRequest.Frame 8, RecorderRequest.Frame 9],
        k := 6, aborted := false } := by
    simp only [ctrlRun, Nat.reduceAdd]
    rw [e0, e1, e2, e3, e4, e5, e6, e7, e8, e9]
  have hiss : (ctrlRun allOk
      [(0, t0), (0, t1), (0, t2), (0, t3), (0, t4), (60, t5), (60, t6), (60, t7),
        (0, t8), (0, t9)] 0 initCtrlM).issued =
      [RecorderRequest.Start, RecorderRequest.Frame 5, RecorderRequest.Frame 6,
        RecorderRequest.Frame 7, RecorderRequest.Frame 8, RecorderRequest.Frame 9] := by
    rw [hrun]
  refine ⟨hiss, ?_, ?_⟩
  · rw [hiss]; decide
  · rw [hiss]; decide

/-- Witness for C7 at 1-second spacing: timestamps 0..9. -/
theorem ten_frame_start_once_no_stop_witness :
    ((9 : Int) - 7 < DEFAULT_RECORDING_MIN_LEN) ∧
      (ctrlRun allOk
          [(0, 0), (0, 1), (0, 2), (0, 3), (0, 4), (60, 5), (60, 6), (60, 7),
            (0, 8), (0, 9)] 0 initCtrlM).issued =
        [RecorderRequest.Start, RecorderRequest.Frame 5, RecorderRequest.Frame 6,
          RecorderRequest.Frame 7, RecorderRequest.Frame 8, RecorderRequest.Frame 9] :=
  ⟨by decide,
    (ten_frame_start_once_no_stop 0 1 2 3 4 5 6 7 8 9 (by decide) (by decide)).1⟩

/-- Run invariant tying the controller to its response oracle: one response
is consumed per issued request; while not panicked every consumed response
was `Ok`; once panicked, the last consumed response was `Err` and every
earlier one was `Ok`. -/
def ctrlReqInv (f : Nat → RecorderResponse) (m : CtrlM) : Prop :=
  m.issued.length = m.k ∧
    (m.aborted = false → ∀ j < m.k, f j = RecorderResponse.Ok) ∧
    (m.aborted = true →
      ∃ j, m.k = j + 1 ∧ f j = RecorderResponse.Err ∧
        ∀ i < j, f i = RecorderResponse.Ok)

theorem sendReq_inv (f : Nat → RecorderResponse) (req : RecorderRequest) (m : CtrlM)
    (h : ctrlReqInv f m) : ctrlReqInv f (sendReq f req m) := by
  obtain ⟨h1, h2, h3⟩ := h
  unfold sendReq
  split
  · exact ⟨h1, h2, h3⟩
  · rename_i hab
    have hab' : m.aborted = false := by simpa using hab
    refine ⟨?_, ?_, ?_⟩
    · show (m.issued ++ [req]).length = m.k + 1
      simp [h1]
    · show decide (f m.k = RecorderResponse.Err) = false →
        ∀ j < m.k + 1, f j = RecorderResponse.Ok
      intro hd j hj
      have hne : f m.k ≠ RecorderResponse.Err := of_decide_eq_false hd
      rcases Nat.lt_succ_iff_lt_or_eq.mp hj with hj' | hj'
      · exact h2 hab' j hj'
      · rw [hj']
        cases hfk : f m.k with
        | Ok => rfl
        | Err => exact absurd hfk hne
    · show decide (f m.k = RecorderResponse.Err) = true →
        ∃ j, m.k + 1 = j + 1 ∧ f j = RecorderResponse.Err ∧
          ∀ i < j, f i = RecorderResponse.Ok
      intro hd
      exact ⟨m.k, rfl, of_decide_eq_true hd, fun i hi => h2 hab' i hi⟩

theorem ctrlFrame_inv (f : Nat → RecorderResponse) (m : CtrlM) (a : Nat) (now : Int)
    (i : Nat) (h : ctrlReqInv f m) : ctrlReqInv f (ctrlFrame f m a now i) := by
  simp only [ctrlFrame]
  repeat' split
  all_goals
    first
      | exact h
      | exact sendReq_inv f _ _ h
      | exact sendReq_inv f _ _ (sendReq_inv f _ _ h)

theorem ctrlRun_inv (f : Nat → RecorderResponse) (frames : List (Nat × Int)) :
    ∀ (i : Nat) (m : CtrlM), ctrlReqInv f m → ctrlReqInv f (ctrlRun f frames i m) := by
  induction frames with
  | nil => intro i m h; simpa [ctrlRun] using h
  | cons p rest ih =>
      intro i m h
      obtain ⟨a, t⟩ := p
      exact ih (i + 1) _ (ctrlFrame_inv f m a t i h)

/-- Claim C8: over any frame sequence and any actor response sequence, the
controller consumes exactly one response per request it issues; every
response other than the last consumed one was `Ok` — so after an `Err`
response no further request is ever issued (no retry) — and if any `Err`
response was received the process has panicked. -/
theorem err_response_aborts (f : Nat → RecorderResponse) (frames : List (Nat × Int))
    (i0 : Nat) :
    (ctrlRun f frames i0 initCtrlM).issued.length = (ctrlRun f frames i0 initCtrlM).k ∧
      (∀ j, j + 1 < (ctrlRun f frames i0 initCtrlM).k → f j = RecorderResponse.Ok) ∧
      ((∃ j < (ctrlRun f frames i0 initCtrlM).k, f j = RecorderResponse.Err) →
        (ctrlRun f frames i0 initCtrlM).aborted = true) := by
  have hinit : ctrlReqInv f initCtrlM := by
    refine ⟨rfl, fun _ j hj => absurd hj (Nat.not_lt_zero j), fun hab => ?_⟩
    simp [initCtrlM] at hab
  obtain ⟨h1, h2, h3⟩ := ctrlRun_inv f frames i0 initCtrlM hinit
  refine ⟨h1, ?_, ?_⟩
  · intro j hj
    cases hab : (ctrlRun f frames i0 initCtrlM).aborted with
    | false => exact h2 hab j (Nat.lt_of_succ_lt hj)
    | true =>
        obtain ⟨j0, hk, _, hOk⟩ := h3 hab
        exact hOk j (by omega)
  · rintro ⟨j, hj, hE⟩
    cases hab : (ctrlRun f frames i0 initCtrlM).aborted with
    | false => exact absurd (h2 hab j hj) (by simp [hE])
    | true => rfl

/-- The response oracle of a run in which the actor always answers `Err`. -/
def allErr : Nat → RecorderResponse := fun _ => RecorderResponse.Err

/-- Witness for C8: with an `Err` answer to its very first request (the
`Start` on a motion frame), the controller panics. -/
theorem err_response_aborts_witness :
    (ctrlRun allErr [(60, 0)] 0 initCtrlM).aborted = true :=
  (err_response_aborts allErr [(60, 0)] 0).2.2 ⟨0, by decide, rfl⟩

/-! ## The background model, first frame (exact arithmetic)

Images are lists of 8-bit grayscale pixels; the accumulator is a list of
rationals (the code's `CV_32F` buffer, idealized to exact arithmetic). -/

/-- The call `accumulate_weighted(&gray, &mut avg, a)`: elementwise
`avg ← a·gray + (1−a)·avg`. -/
def accumulate_weighted (gray : List Nat) (avg : List ℚ) (a : ℚ) : List ℚ :=
  List.zipWith (fun g acc => a * (g : ℚ) + (1 - a) * acc) gray avg

/-- The call `convert_scale_abs(&avg, .., 1, 0)`: elementwise absolute value, rounded
and saturated back to the 8-bit range. -/
def convert_scale_abs (avg : List ℚ) : List Nat :=
  avg.map (fun q => min 255 (round |q|).toNat)

/-- The call `absdiff` on two 8-bit images. -/
def absdiff (x y : List Nat) : List Nat :=
  List.zipWith (fun a b => ((a : Int) - (b : Int)).natAbs) x y

/-- The call `threshold(&frame_delta, .., thr, 255, THRESH_BINARY)`: 255 where the
pixel strictly exceeds `thr`, else 0. -/
def threshold_binary (delta : List Nat) (thr : Nat) : List Nat :=
  delta.map (fun d => if thr < d then 255 else 0)

/-- The `!have_avg` branch: `gray.convert_to(&mut avg, CV_32F, 1., 0.)`,
promoting the first frame's intensities to the accumulator. -/
def first_frame_avg (gray : List Nat) : List ℚ :=
  gray.map (fun g => (g : ℚ))

/-- The motion mask computed for the first frame: initialize the accumulator
from the frame, then (as the code does unconditionally) apply the weighted
accumulation with weight 0.6, convert back, diff, and binarize at 40. -/
def first_frame_mask (gray : List Nat) : List Nat :=
  threshold_binary
    (absdiff gray
      (convert_scale_abs (accumulate_weighted gray (first_frame_avg gray) 0.6)))
    40

theorem accumulate_weighted_first (gray : List Nat) :
    accumulate_weighted gray (first_frame_avg gray) 0.6 = first_frame_avg gray := by
  induction gray with
  | nil => rfl
  | cons g gs ih =>
      simp only [accumulate_weighted, first_frame_avg, List.map_cons,
        List.zipWith_cons_cons] at ih ⊢
      refine congrArg₂ List.cons ?_ ih
      norm_num
      ring

theorem convert_scale_abs_first (gray : List Nat) (h : ∀ g ∈ gray, g ≤ 255) :
    convert_scale_abs (first_frame_avg gray) = gray := by
  induction gray with
  | nil => rfl
  | cons g gs ih =>
      have hg : g ≤ 255 := h g (List.mem_cons_self g gs)
      have hgs : ∀ x ∈ gs, x ≤ 255 := fun x hx => h x (List.mem_cons_of_mem g hx)
      have hhead : min 255 (round |((g : ℕ) : ℚ)|).toNat = g := by
        rw [abs_of_nonneg (by positivity : (0 : ℚ) ≤ ((g : ℕ) : ℚ)), round_natCast,
          Int.toNat_natCast]
        exact min_eq_right hg
      calc convert_scale_abs (first_frame_avg (g :: gs))
          = min 255 (round |((g : ℕ) : ℚ)|).toNat ::
              convert_scale_abs (first_frame_avg gs) := rfl
        _ = g :: gs := by rw [hhead, ih hgs]

theorem absdiff_self (x : List Nat) : absdiff x x = List.replicate x.length 0 := by
  induction x with
  | nil => rfl
  | cons a l ih =>
      calc absdiff (a :: l) (a :: l)
          = ((a : Int) - (a : Int)).natAbs :: absdiff l l := rfl
        _ = 0 :: List.replicate l.length 0 := by rw [ih]; simp
        _ = List.replicate (a :: l).length 0 := rfl

/-- Claim C9: on the first frame, the accumulator is initialized to the
frame's intensities and the weighted update `0.6·g + 0.4·g` leaves it equal
to them, so the absolute difference is zero everywhere and the motion mask
for the first frame is all zeros (every pixel below the threshold 40). -/
theorem first_frame_mask_all_zero (gray : List Nat) (h : ∀ g ∈ gray, g ≤ 255) :
    accumulate_weighted gray (first_frame_avg gray) 0.6 = first_frame_avg gray ∧
      first_frame_mask gray = List.replicate gray.length 0 := by
  refine ⟨accumulate_weighted_first gray, ?_⟩
  unfold first_frame_mask
  rw [accumulate_weighted_first gray, convert_scale_abs_first gray h, absdiff_self]
  simp [threshold_binary]

/-- Witness for C9 on a concrete 8-bit frame. -/
theorem first_frame_mask_all_zero_witness :
    (∀ g ∈ [0, 17, 255], g ≤ 255) ∧
      first_frame_mask [0, 17, 255] = List.replicate (List.length [0, 17, 255]) 0 :=
  ⟨by decide, (first_frame_mask_all_zero [0, 17, 255] (by decide)).2⟩

end MoveDetectCam
